import Mathlib

/-!
# Verification of the smogw-pl incremental synchronization and caching engine

Shallow embedding, in Lean 4, of the parts of the repository that the
specification's testable properties talk about:

* the fetch-window decision of `RefreshCoordinator._refresh_targets.run_one`
  (`backend/app/refresh_jobs.py`),
* the measurement upsert `CacheManager.cache_measurements` and the sync-state
  merge `CacheManager.upsert_sync_state` (`backend/app/cache_manager.py`),
* the retry loop `GiosDataFetcher._make_request` (`backend/app/data_fetcher.py`),
* the aggregation pipeline of `RankingService.compute_year_ranking` and the
  year-recomputation decision of `RankingService.compute_trends`
  (`backend/app/ranking_service.py`).

Python `datetime` values are embedded as a calendar record (`PyDateTime`) with
a conversion to seconds since the Unix epoch (`PyDateTime.toSec`, the standard
civil-from-days algorithm); `datetime` comparison coincides with comparison of
the epoch-second encodings.  SQL `REAL` values are embedded as `ℚ`.
-/

/-! ## Calendar arithmetic (embeds Python `datetime` / `dateutil.relativedelta`) -/

/-- Gregorian leap-year test. -/
def isLeapYear (y : Nat) : Bool :=
  (y % 4 == 0 && y % 100 != 0) || (y % 400 == 0)

/-- Number of days in month `m` (1-based) of year `y`. -/
def daysInMonth (y m : Nat) : Nat :=
  if m = 2 then (if isLeapYear y then 29 else 28)
  else if m = 4 ∨ m = 6 ∨ m = 9 ∨ m = 11 then 30
  else 31

/-- Days from the civil date `(y, m, d)` to 1970-01-01 (Gregorian, valid for
`y ≥ 1`); the standard days-from-civil algorithm. -/
def daysFromCivil (y m d : Nat) : Int :=
  let y' := if m ≤ 2 then y - 1 else y
  let era := y' / 400
  let yoe := y' % 400
  let mp := (m + 9) % 12
  let doy := (153 * mp + 2) / 5 + d - 1
  let doe := yoe * 365 + yoe / 4 - yoe / 100 + doy
  (era * 146097 + doe : Int) - 719468

/-- A naive Python `datetime` (no timezone), as produced by
`datetime.utcnow()` / `datetime.fromisoformat` in this code base. -/
structure PyDateTime where
  year : Nat
  month : Nat
  day : Nat
  hour : Nat
  minute : Nat
  second : Nat
deriving DecidableEq, Repr

/-- Seconds since the Unix epoch.  Comparison of naive `datetime` values in
Python agrees with comparison of this encoding. -/
def PyDateTime.toSec (t : PyDateTime) : Int :=
  daysFromCivil t.year t.month t.day * 86400
    + t.hour * 3600 + t.minute * 60 + t.second

/-- `t - relativedelta(years := n)`: replace the year by `year - n`, clamping
the day-of-month into the target month (Feb 29 → Feb 28), exactly as
`dateutil.relativedelta` normalises the result. -/
def PyDateTime.subYears (t : PyDateTime) (n : Nat) : PyDateTime :=
  { t with year := t.year - n, day := min t.day (daysInMonth (t.year - n) t.month) }

/-! ## SyncPlanner: the fetch-window decision
(`RefreshCoordinator._refresh_targets.run_one`, `backend/app/refresh_jobs.py`
lines 289–323, hourly-delta mode, i.e. `lookback is None`) -/

/-- Outcome of the window decision: either skip the sensor (no data and no
history horizon, `return (0, False, None)`), or fetch `[fromSec, toSec]`. -/
inductive FetchPlan where
  | skip
  | window (fromSec toSec : Int)
deriving DecidableEq, Repr

/-- The hourly-delta fetch-window decision of `run_one`
(`refresh_jobs.py` lines 294–323):

* `history_start = now - relativedelta(years=history_years) if history_years
  else None`;
* no cached data (`max_dt is None`): fetch `[history_start, now]`, or skip if
  there is no history horizon;
* `history_start and (min_dt is None or min_dt > history_start)`: backfill
  `[history_start, min_dt if min_dt else now]`;
* otherwise: delta `[max_dt - overlap, now]`;
* finally, if `from_dt > to_dt`, clamp `from_dt = to_dt - overlap`.

`maxDt`/`minDt` are the epoch-second encodings of
`CacheManager.get_max_measurement_date` / `get_min_measurement_date`;
`overlapSec` is the refresh overlap in seconds (`timedelta` total seconds). -/
def planHourlyWindow (now : PyDateTime) (maxDt minDt : Option Int)
    (historyYears : Nat) (overlapSec : Int) : FetchPlan :=
  let toSec : Int := now.toSec
  let historyStart : Option Int :=
    if historyYears ≠ 0 then some (now.subYears historyYears).toSec else none
  let chosen : Option (Int × Int) :=
    match maxDt with
    | none =>
      match historyStart with
      | none => none
      | some hs => some (hs, toSec)
    | some mx =>
      match historyStart with
      | some hs =>
        match minDt with
        | none => some (hs, toSec)
        | some mn => if hs < mn then some (hs, mn) else some (mx - overlapSec, toSec)
      | none => some (mx - overlapSec, toSec)
  match chosen with
  | none => FetchPlan.skip
  | some (f, t) => if t < f then FetchPlan.window (t - overlapSec) t else FetchPlan.window f t

/-- The `from` component of an emitted window, if any. -/
def FetchPlan.fromSec? : FetchPlan → Option Int
  | FetchPlan.skip => none
  | FetchPlan.window f _ => some f

/-- The `to` component of an emitted window, if any. -/
def FetchPlan.toSec? : FetchPlan → Option Int
  | FetchPlan.skip => none
  | FetchPlan.window _ t => some t

/-- C1: in hourly-delta mode the planned fetch window follows the decision
table — no cached measurements: `[now - historyYears, now]`; cached minimum
later than `now - historyYears`: `[now - historyYears, cached_min]`; full
history present: `[cached_max - overlap, now]`; whenever the computed `from`
exceeds `to`, `from` is clamped to `to - overlap`, so every emitted window has
`from ≤ to`.  Concretely, with no cached data, `historyYears = 15` and
`now = 2024-06-01`, the window is exactly `[2009-06-01, 2024-06-01]`; with
cached `max_date = 2024-05-30`, full history, and `overlap = 48h`, the delta
window is exactly `[2024-05-28, 2024-06-01]`. -/
theorem C1_sync_planner_window (now : PyDateTime) (hy : Nat) (ov : Int)
    (hhy : hy ≠ 0) (hov : 0 ≤ ov)
    (hmono : (now.subYears hy).toSec ≤ now.toSec) :
    (∀ mn, planHourlyWindow now none mn hy ov
        = FetchPlan.window (now.subYears hy).toSec now.toSec)
    ∧ (∀ mx mn, (now.subYears hy).toSec < mn →
        planHourlyWindow now (some mx) (some mn) hy ov
          = FetchPlan.window (now.subYears hy).toSec mn)
    ∧ (∀ mx mn, mn ≤ (now.subYears hy).toSec → mx - ov ≤ now.toSec →
        planHourlyWindow now (some mx) (some mn) hy ov
          = FetchPlan.window (mx - ov) now.toSec)
    ∧ (∀ mx mn, mn ≤ (now.subYears hy).toSec → now.toSec < mx - ov →
        planHourlyWindow now (some mx) (some mn) hy ov
          = FetchPlan.window (now.toSec - ov) now.toSec)
    ∧ (∀ mxo mno f t, planHourlyWindow now mxo mno hy ov = FetchPlan.window f t → f ≤ t)
    ∧ planHourlyWindow ⟨2024, 6, 1, 0, 0, 0⟩ none none 15 3600
        = FetchPlan.window (PyDateTime.toSec ⟨2009, 6, 1, 0, 0, 0⟩)
            (PyDateTime.toSec ⟨2024, 6, 1, 0, 0, 0⟩)
    ∧ planHourlyWindow ⟨2024, 6, 1, 0, 0, 0⟩
        (some (PyDateTime.toSec ⟨2024, 5, 30, 0, 0, 0⟩))
        (some (PyDateTime.toSec ⟨2009, 6, 1, 0, 0, 0⟩)) 15 172800
        = FetchPlan.window (PyDateTime.toSec ⟨2024, 5, 28, 0, 0, 0⟩)
            (PyDateTime.toSec ⟨2024, 6, 1, 0, 0, 0⟩) := by
  have hnl : ¬ (now.toSec < (now.subYears hy).toSec) := not_lt.mpr hmono
  refine ⟨?_, ?_, ?_, ?_, ?_, by decide, by decide⟩
  · intro mn
    simp [planHourlyWindow, hhy, hnl]
  · intro mx mn hlt
    simp only [planHourlyWindow, if_pos hhy, if_pos hlt]
    rw [if_neg (not_lt.mpr (le_of_lt hlt))]
  · intro mx mn hle hto
    simp only [planHourlyWindow, if_pos hhy]
    rw [if_neg (not_lt.mpr hle)]
    dsimp only
    rw [if_neg (not_lt.mpr hto)]
  · intro mx mn hle hto
    simp only [planHourlyWindow, if_pos hhy]
    rw [if_neg (not_lt.mpr hle)]
    dsimp only
    rw [if_pos hto]
  · intro mxo mno f t hplan
    unfold planHourlyWindow at hplan
    rw [if_pos hhy] at hplan
    cases mxo with
    | none =>
      dsimp only at hplan
      rw [if_neg hnl] at hplan
      cases hplan
      exact hmono
    | some mx =>
      cases mno with
      | none =>
        dsimp only at hplan
        split at hplan <;> (cases hplan; omega)
      | some mn =>
        dsimp only at hplan
        by_cases h1 : (now.subYears hy).toSec < mn
        · rw [if_pos h1] at hplan
          dsimp only at hplan
          split at hplan <;> (cases hplan; omega)
        · rw [if_neg h1] at hplan
          dsimp only at hplan
          split at hplan <;> (cases hplan; omega)

theorem C1_sync_planner_window_witness :
    planHourlyWindow ⟨2024, 6, 1, 0, 0, 0⟩ none none 15 3600
      = FetchPlan.window (PyDateTime.toSec ⟨2009, 6, 1, 0, 0, 0⟩)
          (PyDateTime.toSec ⟨2024, 6, 1, 0, 0, 0⟩) :=
  (C1_sync_planner_window ⟨2024, 6, 1, 0, 0, 0⟩ 15 3600 (by decide) (by decide)
    (by decide)).1 none

/-! ## Store: per-sensor sync state
(`CacheManager.get_sync_state` / `CacheManager.upsert_sync_state`,
`backend/app/cache_manager.py` lines 392–434) -/

/-- One row of the `sync_state` table (`sensor_id` is the primary key and is
kept as the association-list key). -/
structure SyncRow where
  maxDate : Option Int
  lastSuccessAt : Option Int
  lastAttemptAt : Option Int
  lastError : Option String
deriving DecidableEq, Repr

/-- The `sync_state` table: one row per sensor id (primary key). -/
abbrev SyncTable := List (Int × SyncRow)

/-- SQL `COALESCE(new, old)`. -/
def coalesce {α : Type} (new old : Option α) : Option α :=
  match new with
  | some v => some v
  | none => old

/-- `CacheManager.get_sync_state`: the row for `sensorId`, if present. -/
def get_sync_state (tbl : SyncTable) (sensorId : Int) : Option SyncRow :=
  (tbl.find? (fun e => e.1 == sensorId)).map (fun e => e.2)

/-- `CacheManager.upsert_sync_state`: `INSERT ... ON CONFLICT(sensor_id) DO
UPDATE SET max_date = COALESCE(excluded.max_date, sync_state.max_date),
last_success_at = COALESCE(excluded.last_success_at, sync_state.last_success_at),
last_attempt_at = excluded.last_attempt_at, last_error = excluded.last_error`. -/
def upsert_sync_state (tbl : SyncTable) (sensorId : Int)
    (maxDate lastSuccessAt lastAttemptAt : Option Int)
    (lastError : Option String) : SyncTable :=
  match tbl.find? (fun e => e.1 == sensorId) with
  | none => tbl ++ [(sensorId, ⟨maxDate, lastSuccessAt, lastAttemptAt, lastError⟩)]
  | some _ =>
    tbl.map (fun e =>
      if e.1 == sensorId then
        (e.1, ⟨coalesce maxDate e.2.maxDate, coalesce lastSuccessAt e.2.lastSuccessAt,
               lastAttemptAt, lastError⟩)
      else e)

theorem get_sync_state_upsert_existing (tbl : SyncTable) (sid : Int) (old : SyncRow)
    (hold : get_sync_state tbl sid = some old)
    (md ls la : Option Int) (le : Option String) :
    get_sync_state (upsert_sync_state tbl sid md ls la le) sid
      = some ⟨coalesce md old.maxDate, coalesce ls old.lastSuccessAt, la, le⟩ := by
  unfold get_sync_state at hold ⊢
  unfold upsert_sync_state
  cases hfind : tbl.find? (fun e => e.1 == sid) with
  | none => rw [hfind] at hold; simp at hold
  | some e0 =>
    rw [hfind] at hold
    have he2 : e0.2 = old := by simpa using hold
    have hkey : e0.1 = sid := by simpa using List.find?_some hfind
    rw [List.find?_map]
    have hpred : ((fun e : Int × SyncRow => e.1 == sid) ∘ fun e : Int × SyncRow =>
        if e.1 == sid then
          (e.1, (⟨coalesce md e.2.maxDate, coalesce ls e.2.lastSuccessAt, la, le⟩ : SyncRow))
        else e) = fun e : Int × SyncRow => e.1 == sid := by
      funext e
      by_cases h : e.1 = sid <;> simp [h]
    rw [hpred, hfind]
    simp [hkey, he2]

theorem get_sync_state_upsert_other (tbl : SyncTable) (sid sid' : Int)
    (hne : sid' ≠ sid)
    (md ls la : Option Int) (le : Option String) :
    get_sync_state (upsert_sync_state tbl sid md ls la le) sid'
      = get_sync_state tbl sid' := by
  unfold get_sync_state upsert_sync_state
  cases hfind : tbl.find? (fun e => e.1 == sid) with
  | none =>
    rw [List.find?_append]
    have hb : (sid == sid') = false := beq_eq_false_iff_ne.mpr (Ne.symm hne)
    simp [List.find?, hb]
  | some e0 =>
    rw [List.find?_map]
    have hpred : ((fun e : Int × SyncRow => e.1 == sid') ∘ fun e : Int × SyncRow =>
        if e.1 == sid then
          (e.1, (⟨coalesce md e.2.maxDate, coalesce ls e.2.lastSuccessAt, la, le⟩ : SyncRow))
        else e) = fun e : Int × SyncRow => e.1 == sid' := by
      funext e
      by_cases h : e.1 = sid <;> simp [h]
    rw [hpred]
    cases hfind' : tbl.find? (fun e => e.1 == sid') with
    | none => simp
    | some e1 =>
      have hkey : e1.1 = sid' := by simpa using List.find?_some hfind'
      have hne1 : ¬ e1.1 = sid := by rw [hkey]; exact hne
      simp [hne1]

/-- C7: `upsert_sync_state` merges rather than overwrites — for an existing
row, an update carrying a null `max_date` (resp. null `last_success_at`)
leaves the stored value in place (COALESCE merge), while `last_attempt_at`
and `last_error` are always overwritten with the new values, including
overwriting with null. -/
theorem C7_upsert_sync_state_merge (tbl : SyncTable) (sid : Int) (old : SyncRow)
    (hold : get_sync_state tbl sid = some old)
    (md ls la : Option Int) (le : Option String) :
    (get_sync_state (upsert_sync_state tbl sid none ls la le) sid).map SyncRow.maxDate
        = some old.maxDate
    ∧ (get_sync_state (upsert_sync_state tbl sid md none la le) sid).map SyncRow.lastSuccessAt
        = some old.lastSuccessAt
    ∧ get_sync_state (upsert_sync_state tbl sid md ls la le) sid
        = some ⟨coalesce md old.maxDate, coalesce ls old.lastSuccessAt, la, le⟩ := by
  refine ⟨?_, ?_, get_sync_state_upsert_existing tbl sid old hold md ls la le⟩
  · rw [get_sync_state_upsert_existing tbl sid old hold none ls la le]
    rfl
  · rw [get_sync_state_upsert_existing tbl sid old hold md none la le]
    rfl

theorem C7_upsert_sync_state_merge_witness :
    (get_sync_state
        (upsert_sync_state [(7, ⟨some 100, some 90, some 90, none⟩)] 7 none none (some 200)
          (some "boom")) 7).map SyncRow.maxDate = some (some 100) :=
  (C7_upsert_sync_state_merge [(7, ⟨some 100, some 90, some 90, none⟩)] 7
    ⟨some 100, some 90, some 90, none⟩ (by decide) none none (some 200) (some "boom")).1

/-- The error-path sync-state update of `run_one` (`refresh_jobs.py` lines
341–348): on a failed per-sensor fetch the coordinator calls
`upsert_sync_state(sensor_id, max_date=None, last_success_at=None,
last_attempt_at=_now(), last_error=str(e)[:1000])`. -/
def errorPathSyncUpdate (tbl : SyncTable) (sensorId : Int) (attemptAt : Int)
    (errMsg : String) : SyncTable :=
  upsert_sync_state tbl sensorId none none (some attemptAt) (some (errMsg.take 1000))

/-- C10: a failed per-sensor fetch never regresses sync progress — for a
sensor with an existing sync-state row, the error-path update carries null
`max_date` and `last_success_at`, which the COALESCE merge ignores, so the
previously recorded `max_date` and `last_success_at` are unchanged, while
`last_attempt_at` is set to the attempt time and `last_error` to the
truncated failure message; rows of other sensors are untouched. -/
theorem C10_error_path_preserves_progress (tbl : SyncTable) (sid : Int) (old : SyncRow)
    (hold : get_sync_state tbl sid = some old) (attemptAt : Int) (errMsg : String) :
    get_sync_state (errorPathSyncUpdate tbl sid attemptAt errMsg) sid
        = some ⟨old.maxDate, old.lastSuccessAt, some attemptAt, some (errMsg.take 1000)⟩
    ∧ ∀ sid', sid' ≠ sid →
        get_sync_state (errorPathSyncUpdate tbl sid attemptAt errMsg) sid'
          = get_sync_state tbl sid' := by
  constructor
  · rw [errorPathSyncUpdate,
      get_sync_state_upsert_existing tbl sid old hold none none (some attemptAt)
        (some (errMsg.take 1000))]
    rfl
  · intro sid' hne
    exact get_sync_state_upsert_other tbl sid sid' hne none none (some attemptAt)
      (some (errMsg.take 1000))

/-! ## AggregationEngine: the year-recomputation decision of `compute_trends`
(`RankingService.compute_trends`, `backend/app/ranking_service.py` lines
287–308) -/

/-- One cached row of the `annual_city_stats` table as `compute_trends` reads
it back (`get_annual_stats`): `computedAt` is the parse of the stored
`computed_at` string by `datetime.fromisoformat`, embedded as epoch seconds;
`none` embeds a missing or unparseable `computed_at` (the source's
`except (ValueError, TypeError): pass` path). -/
structure AnnualStatRow where
  year : Int
  city : String
  exceedanceDays : Int
  totalDays : Int
  computedAt : Option Int
deriving DecidableEq, Repr

/-- `CURRENT_YEAR_CACHE_TTL_SECONDS = 3600  # 1 hour`. -/
def CURRENT_YEAR_CACHE_TTL_SECONDS : Int := 3600

/-- The `years_to_compute` selection of `compute_trends`
(`ranking_service.py` lines 289–308): walk `years_to_cover`; the current year
is recomputed unless its cached entry exists, parses, and
`age_seconds < CURRENT_YEAR_CACHE_TTL_SECONDS`; a past (or future) year is
recomputed only when it has no cached entry at all. -/
def yearsToCompute (yearsToCover : List Int) (currentYear : Int)
    (cachedStats : List AnnualStatRow) (nowSec : Int) : List Int :=
  let cachedYears := cachedStats.map (fun r => r.year)
  yearsToCover.filter (fun y =>
    if y == currentYear then
      match cachedStats.find? (fun r => r.year == y) with
      | some entry =>
        match entry.computedAt with
        | some t => !(decide (nowSec - t < CURRENT_YEAR_CACHE_TTL_SECONDS))
        | none => true
      | none => true
    else !(cachedYears.contains y))

/-- C4 counterexample: a current-year entry whose age is exactly one hour
(3600 s) is recomputed by the code (`age_seconds < 3600` fails), although the
entry is present and not older than the one-hour TTL — so "recomputes exactly
when the cached entry is missing or older than the TTL" is false as stated. -/
theorem C4_counterexample :
    ¬ (((2024 : Int) ∈ yearsToCompute [2024] 2024 [⟨2024, "Lublin", 0, 0, some 0⟩] 3600)
      ↔ (([⟨2024, "Lublin", 0, 0, some 0⟩] : List AnnualStatRow).find?
            (fun r => r.year == 2024) = none
          ∨ (3600 : Int) - 0 > CURRENT_YEAR_CACHE_TTL_SECONDS)) := by decide

/-- C4 (amended): `compute_trends` recomputes the current year exactly when
its cached entry is missing, its `computed_at` fails to parse, or its age is
at least one hour (`age_seconds < 3600` is false, so an entry exactly one
hour old is recomputed); it never recomputes a past year that already has a
cached entry.  Concretely: a current-year entry computed 2 hours ago is
recomputed, one computed 30 minutes ago is not. -/
theorem C4_trend_freshness (yearsToCover : List Int) (currentYear : Int)
    (cachedStats : List AnnualStatRow) (nowSec : Int)
    (hmem : currentYear ∈ yearsToCover) :
    (currentYear ∈ yearsToCompute yearsToCover currentYear cachedStats nowSec
      ↔ (match cachedStats.find? (fun r => r.year == currentYear) with
         | none => True
         | some entry =>
           match entry.computedAt with
           | none => True
           | some t => CURRENT_YEAR_CACHE_TTL_SECONDS ≤ nowSec - t))
    ∧ (∀ y, y ≠ currentYear → y ∈ cachedStats.map (fun r => r.year) →
        y ∉ yearsToCompute yearsToCover currentYear cachedStats nowSec)
    ∧ (2024 : Int) ∈ yearsToCompute [2024] 2024 [⟨2024, "Lublin", 3, 200, some 0⟩] 7200
    ∧ (2024 : Int) ∉ yearsToCompute [2024] 2024 [⟨2024, "Lublin", 3, 200, some 5400⟩] 7200 := by
  refine ⟨?_, ?_, by decide, by decide⟩
  · rw [yearsToCompute, List.mem_filter]
    cases hfind : cachedStats.find? (fun r => r.year == currentYear) with
    | none =>
      simp [hmem, hfind]
    | some entry =>
      cases hca : entry.computedAt with
      | none => simp [hmem, hfind, hca]
      | some t => simp [hmem, hfind, hca, not_lt]
  · intro y hne hcached
    rw [yearsToCompute, List.mem_filter]
    rintro ⟨-, hpred⟩
    have hyc : (y == currentYear) = false := beq_eq_false_iff_ne.mpr hne
    rw [if_neg (by simp [hyc])] at hpred
    simp only [Bool.not_eq_true', List.contains_eq_any_beq, List.any_eq_false,
      beq_iff_eq] at hpred
    exact hpred y hcached rfl

theorem C4_trend_freshness_witness :
    (2024 : Int) ∈ yearsToCompute [2024] 2024 [⟨2024, "Lublin", 3, 200, some 0⟩] 7200 :=
  (C4_trend_freshness [2024] 2024 [⟨2024, "Lublin", 3, 200, some 0⟩] 7200
    (by decide)).2.2.1

/-! ## UpstreamClient: the retry loop
(`GiosDataFetcher._make_request`, `backend/app/data_fetcher.py` lines 42–99) -/

/-- The observable outcome of one HTTP attempt: a response with a status code
and an (abstracted) JSON payload, an `httpx.TimeoutException`, or another
`httpx.HTTPError` (abstracted by a numeric identifier). -/
inductive HttpAttempt where
  | response (status : Nat) (payload : Nat)
  | timeout
  | networkError (e : Nat)
deriving DecidableEq, Repr

/-- What `_make_request` hands back to its caller: a normally returned JSON
body — either `response.json()` or the final `return {}` — or a raised
exception (carrying the status code or exception identifier of the last
attempt). -/
inductive ReqResult where
  | value (body : Option Nat)
  | raised (info : Nat)
deriving DecidableEq, Repr

/-- The empty dict `{}` returned after the loop exhausts all attempts. -/
def emptyDict : Option Nat := none

/-- An attempt the retry loop always retries: HTTP 429, 500, 502, 503, 504,
or a request timeout. -/
def retryableAttempt : HttpAttempt → Bool
  | HttpAttempt.response s _ => s == 429 || s == 500 || s == 502 || s == 503 || s == 504
  | HttpAttempt.timeout => true
  | HttpAttempt.networkError _ => false

/-- The retry loop of `_make_request`, over the list of outcomes of the at
most `max_retries` attempts (the list's length is the attempt budget, so the
source's `attempt == max_retries - 1` test is `rest.isEmpty`):

* status 429: sleep and `continue`;
* status 500/502/503: backoff and `continue`;
* status 504: sleep and `continue`;
* any other non-2xx status: `response.raise_for_status()` raises an
  `httpx.HTTPStatusError`, which the `except httpx.HTTPError` clause
  re-raises on the last attempt and otherwise retries after a backoff;
* a 2xx response: return `response.json()`;
* `httpx.TimeoutException`: backoff and `continue` (never re-raised);
* another `httpx.HTTPError`: re-raised on the last attempt, otherwise retried;
* after the loop: `return {}`. -/
def makeRequestLoop : List HttpAttempt → ReqResult
  | [] => ReqResult.value emptyDict
  | a :: rest =>
    match a with
    | HttpAttempt.response s p =>
      if s == 429 then makeRequestLoop rest
      else if s == 500 || s == 502 || s == 503 then makeRequestLoop rest
      else if s == 504 then makeRequestLoop rest
      else if 200 ≤ s ∧ s < 300 then ReqResult.value (some p)
      else if rest.isEmpty then ReqResult.raised s
      else makeRequestLoop rest
    | HttpAttempt.timeout => makeRequestLoop rest
    | HttpAttempt.networkError e =>
      if rest.isEmpty then ReqResult.raised e
      else makeRequestLoop rest

/-- C3 counterexample: a request whose whole budget (3 attempts, the
metadata-class budget) is exhausted by retryable HTTP 500 responses returns
the empty dict `{}` — a normal value — instead of failing with an
`UpstreamUnavailable`-style error, contradicting the claim. -/
theorem C3_counterexample :
    ([HttpAttempt.response 500 0, HttpAttempt.response 500 0,
        HttpAttempt.response 500 0].all retryableAttempt = true)
    ∧ makeRequestLoop [HttpAttempt.response 500 0, HttpAttempt.response 500 0,
        HttpAttempt.response 500 0] = ReqResult.value emptyDict
    ∧ ¬ ∃ info, makeRequestLoop [HttpAttempt.response 500 0, HttpAttempt.response 500 0,
        HttpAttempt.response 500 0] = ReqResult.raised info := by
  refine ⟨by decide, by decide, ?_⟩
  rintro ⟨info, h⟩
  rw [show makeRequestLoop [HttpAttempt.response 500 0, HttpAttempt.response 500 0,
      HttpAttempt.response 500 0] = ReqResult.value emptyDict from by decide] at h
  exact ReqResult.noConfusion h

/-- C3 (amended): when every attempt in the budget yields a retryable outcome
(HTTP 429/500/502/503/504 or a timeout), `_make_request` exhausts the budget
and returns the empty dict `{}` to the caller; an exception is raised only
when the final attempt fails with a non-retryable `httpx.HTTPError` — a
non-2xx, non-retryable status (via `raise_for_status`) or a network error —
and it carries that last status/exception. -/
theorem C3_make_request_exhaustion (attempts : List HttpAttempt)
    (hall : attempts.all retryableAttempt = true) :
    makeRequestLoop attempts = ReqResult.value emptyDict
    ∧ (∀ s p, (s == 429 || s == 500 || s == 502 || s == 503 || s == 504) = false →
        ¬ (200 ≤ s ∧ s < 300) →
        makeRequestLoop (attempts ++ [HttpAttempt.response s p]) = ReqResult.raised s)
    ∧ (∀ e, makeRequestLoop (attempts ++ [HttpAttempt.networkError e])
        = ReqResult.raised e) := by
  induction attempts with
  | nil =>
    refine ⟨rfl, ?_, ?_⟩
    · intro s p hs h2xx
      have h429 : (s == 429) = false := by
        cases hb : (s == 429) <;> simp_all
      have h5xx : (s == 500 || s == 502 || s == 503) = false := by
        cases hb : (s == 500 || s == 502 || s == 503) <;> simp_all
      have h504 : (s == 504) = false := by
        cases hb : (s == 504) <;> simp_all
      simp [makeRequestLoop, h429, h5xx, h504, h2xx]
    · intro e
      simp [makeRequestLoop]
  | cons a rest ih =>
    have ha : retryableAttempt a = true := by
      simp only [List.all_cons, Bool.and_eq_true] at hall
      exact hall.1
    have hrest : rest.all retryableAttempt = true := by
      simp only [List.all_cons, Bool.and_eq_true] at hall
      exact hall.2
    obtain ⟨ih1, ih2, ih3⟩ := ih hrest
    have hstep : ∀ tail, makeRequestLoop (a :: tail) = makeRequestLoop tail := by
      intro tail
      cases a with
      | response s p =>
        simp only [retryableAttempt, Bool.or_eq_true, beq_iff_eq] at ha
        rcases ha with (((h | h) | h) | h) | h <;> subst h <;> rfl
      | timeout => simp [makeRequestLoop]
      | networkError e => simp [retryableAttempt] at ha
    refine ⟨?_, ?_, ?_⟩
    · rw [hstep rest]; exact ih1
    · intro s p hs h2xx
      rw [List.cons_append, hstep (rest ++ [HttpAttempt.response s p])]
      exact ih2 s p hs h2xx
    · intro e
      rw [List.cons_append, hstep (rest ++ [HttpAttempt.networkError e])]
      exact ih3 e

theorem C3_make_request_exhaustion_witness :
    makeRequestLoop [HttpAttempt.response 429 0, HttpAttempt.timeout,
        HttpAttempt.response 503 0] = ReqResult.value emptyDict :=
  (C3_make_request_exhaustion [HttpAttempt.response 429 0, HttpAttempt.timeout,
    HttpAttempt.response 503 0] (by decide)).1

/-! ## Store: measurements table and the inputs of the window decision
(`CacheManager.get_max_measurement_date` / `get_min_measurement_date`,
`backend/app/cache_manager.py` lines 350–390) -/

/-- One row of the `measurements` table (the columns the claims use; `REAL`
values are embedded as `ℚ`, a null value as `none`). -/
structure MeasRow where
  sensorId : Int
  stationId : Int
  pollutantCode : String
  dateSec : Int
  value : Option ℚ
deriving DecidableEq, Repr

/-- The Store state read by the refresh coordinator: the `measurements` table
and the `sync_state` table. -/
structure Store where
  measurements : List MeasRow
  syncState : SyncTable
deriving DecidableEq, Repr

/-- `CacheManager.get_max_measurement_date`:
`SELECT MAX(date) FROM measurements WHERE sensor_id = ?`. -/
def get_max_measurement_date (st : Store) (sensorId : Int) : Option Int :=
  ((st.measurements.filter (fun m => m.sensorId == sensorId)).map
    (fun m => m.dateSec)).max?

/-- `CacheManager.get_min_measurement_date`:
`SELECT MIN(date) FROM measurements WHERE sensor_id = ?`. -/
def get_min_measurement_date (st : Store) (sensorId : Int) : Option Int :=
  ((st.measurements.filter (fun m => m.sensorId == sensorId)).map
    (fun m => m.dateSec)).min?

/-- The fetch window `run_one` plans for a sensor in hourly-delta mode: the
decision reads `get_max_measurement_date` and `get_min_measurement_date` from
the measurements table (`refresh_jobs.py` lines 300–319); the `sync_state`
table is not consulted. -/
def plannedWindowForSensor (st : Store) (sensorId : Int) (now : PyDateTime)
    (historyYears : Nat) (overlapSec : Int) : FetchPlan :=
  planHourlyWindow now (get_max_measurement_date st sensorId)
    (get_min_measurement_date st sensorId) historyYears overlapSec

/-- C5 counterexample: two stores with identical `sync_state` tables (both
hold the same row for sensor 1) but different measurement tables plan
different windows — the sync-state row is not the sole input to the
fetch-window decision, contradicting the claim. -/
theorem C5_counterexample :
    (Store.mk [] [(1, ⟨some 100, some 100, some 100, none⟩)]).syncState
      = (Store.mk [⟨1, 1, "PM10", PyDateTime.toSec ⟨2024, 5, 30, 0, 0, 0⟩, some 10⟩]
          [(1, ⟨some 100, some 100, some 100, none⟩)]).syncState
    ∧ plannedWindowForSensor
        (Store.mk [] [(1, ⟨some 100, some 100, some 100, none⟩)]) 1
        ⟨2024, 6, 1, 0, 0, 0⟩ 15 3600
      ≠ plannedWindowForSensor
        (Store.mk [⟨1, 1, "PM10", PyDateTime.toSec ⟨2024, 5, 30, 0, 0, 0⟩, some 10⟩]
          [(1, ⟨some 100, some 100, some 100, none⟩)]) 1
        ⟨2024, 6, 1, 0, 0, 0⟩ 15 3600 := by decide

/-- C5 (amended): the sensor's measurement-date range is the sole store input
to the fetch-window decision — any two stores that agree on the sensor's
minimum and maximum measurement dates plan the same window for the same
`now`, `historyYears` and `overlap`, regardless of their `sync_state`
tables. -/
theorem C5_window_ignores_sync_state (st1 st2 : Store) (sensorId : Int)
    (now : PyDateTime) (hy : Nat) (ov : Int)
    (hmax : get_max_measurement_date st1 sensorId = get_max_measurement_date st2 sensorId)
    (hmin : get_min_measurement_date st1 sensorId = get_min_measurement_date st2 sensorId) :
    plannedWindowForSensor st1 sensorId now hy ov
      = plannedWindowForSensor st2 sensorId now hy ov := by
  unfold plannedWindowForSensor
  rw [hmax, hmin]

theorem C5_window_ignores_sync_state_witness :
    plannedWindowForSensor
        (Store.mk [⟨1, 1, "PM10", 1000, some 10⟩] []) 1 ⟨2024, 6, 1, 0, 0, 0⟩ 15 3600
      = plannedWindowForSensor
        (Store.mk [⟨1, 1, "PM10", 1000, some 10⟩]
          [(1, ⟨some 99999, some 99999, some 99999, some "err"⟩)]) 1
        ⟨2024, 6, 1, 0, 0, 0⟩ 15 3600 :=
  C5_window_ignores_sync_state
    (Store.mk [⟨1, 1, "PM10", 1000, some 10⟩] [])
    (Store.mk [⟨1, 1, "PM10", 1000, some 10⟩]
      [(1, ⟨some 99999, some 99999, some 99999, some "err"⟩)])
    1 ⟨2024, 6, 1, 0, 0, 0⟩ 15 3600 (by decide) (by decide)

/-! ## RefreshCoordinator: per-station sensor resolution
(`RefreshCoordinator._get_station_sensors`, `backend/app/refresh_jobs.py`
lines 202–214; the hourly job calls it with `force_refresh=False`, line 227,
the weekly sweep with `force_refresh=True`, line 258) -/

/-- `_get_station_sensors`: start from the cached sensor list unless
`force_refresh`; if that list is non-empty return it, otherwise fetch the
list from upstream (`fetch_station_sensors`).  The boolean in the result
records whether the upstream client was called. -/
def getStationSensors (cachedSensors upstreamSensors : List Int)
    (forceRefresh : Bool) : List Int × Bool :=
  let sensors := if forceRefresh then [] else cachedSensors
  if sensors.isEmpty then (upstreamSensors, true) else (sensors, false)

/-- C9 counterexample: in hourly mode (`force_refresh=False`), a station
whose cached sensor list is empty does trigger an upstream
`fetch_station_sensors` call — the hourly job is not cache-only for such a
station, contradicting the claim. -/
theorem C9_counterexample :
    (getStationSensors [] [5] false).2 = true := by decide

/-- C9 (amended): in an hourly refresh (`force_refresh=False`) the sensor
list is served from the cache — without any upstream call — whenever the
cache holds a non-empty sensor list for the station; the upstream client is
called only when the cache is empty for that station, and the weekly sweep
(`force_refresh=True`) always calls upstream. -/
theorem C9_sensor_resolution (cached upstreamSensors : List Int) :
    (cached ≠ [] →
        getStationSensors cached upstreamSensors false = (cached, false))
    ∧ (cached = [] →
        getStationSensors cached upstreamSensors false = (upstreamSensors, true))
    ∧ getStationSensors cached upstreamSensors true = (upstreamSensors, true) := by
  refine ⟨?_, ?_, ?_⟩
  · intro h
    simp [getStationSensors, h]
  · intro h
    simp [getStationSensors, h]
  · simp [getStationSensors]

theorem C9_sensor_resolution_witness :
    getStationSensors [3] [5] false = ([3], false) :=
  (C9_sensor_resolution [3] [5]).1 (by decide)

theorem C10_error_path_preserves_progress_witness :
    get_sync_state (errorPathSyncUpdate [(7, ⟨some 100, some 90, some 90, none⟩)] 7 200 "boom") 7
      = some ⟨some 100, some 90, some 200, some ("boom".take 1000)⟩ :=
  (C10_error_path_preserves_progress [(7, ⟨some 100, some 90, some 90, none⟩)] 7
    ⟨some 100, some 90, some 90, none⟩ (by decide) 200 "boom").1

/-! ## Store: `cache_measurements`
(`CacheManager.cache_measurements`, `backend/app/cache_manager.py` lines
253–292, together with the unique index on `(sensor_id, date)` established by
`CacheManager.initialize`, lines 160–178, which gives `INSERT OR REPLACE`
its replace-on-conflict semantics) -/

/-- Numeric value of a decimal digit character. -/
def digitVal (c : Char) : Option Nat :=
  if c.isDigit then some (c.toNat - '0'.toNat) else none

/-- Two decimal digits. -/
def twoDigits (a b : Char) : Option Nat := do
  let x ← digitVal a
  let y ← digitVal b
  pure (10 * x + y)

/-- Four decimal digits. -/
def fourDigits (a b c d : Char) : Option Nat := do
  let x ← twoDigits a b
  let y ← twoDigits c d
  pure (100 * x + y)

/-- A calendar-valid `PyDateTime`, or `none` (the `ValueError` of
`datetime.fromisoformat` on an out-of-range field). -/
def mkPyDateTime (y mo d h mi s : Nat) : Option PyDateTime :=
  if 1 ≤ mo ∧ mo ≤ 12 ∧ 1 ≤ d ∧ d ≤ daysInMonth y mo ∧ h < 24 ∧ mi < 60 ∧ s < 60 then
    some ⟨y, mo, d, h, mi, s⟩
  else none

/-- Embedding of `datetime.fromisoformat` on the timestamp shapes this system
stores and receives (`"YYYY-MM-DD HH:MM:SS"`, `"YYYY-MM-DDTHH:MM:SS"`, or a
bare `"YYYY-MM-DD"`); any other or malformed string parses to `none` (the
exception path of `cache_manager.py` lines 271–277). -/
def parseTimestamp (s : String) : Option PyDateTime :=
  match s.data with
  | [y1, y2, y3, y4, '-', mo1, mo2, '-', d1, d2] => do
    let y ← fourDigits y1 y2 y3 y4
    let mo ← twoDigits mo1 mo2
    let d ← twoDigits d1 d2
    mkPyDateTime y mo d 0 0 0
  | [y1, y2, y3, y4, '-', mo1, mo2, '-', d1, d2, sep, h1, h2, ':', mi1, mi2, ':', s1, s2] => do
    if sep = ' ' ∨ sep = 'T' then
      let y ← fourDigits y1 y2 y3 y4
      let mo ← twoDigits mo1 mo2
      let d ← twoDigits d1 d2
      let h ← twoDigits h1 h2
      let mi ← twoDigits mi1 mi2
      let sec ← twoDigits s1 s2
      mkPyDateTime y mo d h mi sec
    else none
  | _ => none

/-- One incoming measurement dict as `cache_measurements` reads it: the
`"Data"` field (`none` embeds a missing key) and the nullable `"Wartość"`
value. -/
structure RawMeasurement where
  data : Option String
  value : Option ℚ
deriving DecidableEq, Repr

/-- The parse-and-skip step of `cache_measurements` (`cache_manager.py`
lines 264–280): a row whose `"Data"` is missing or empty (`if not date_str`)
or fails to parse is skipped; the rest become
`(sensor_id, station_id, pollutant_code, date, value)` tuples in order. -/
def parseOneMeasurement (sensorId stationId : Int) (pollutantCode : String)
    (m : RawMeasurement) : Option MeasRow :=
  match m.data with
  | none => none
  | some s =>
    if s = "" then none
    else
      match parseTimestamp s with
      | none => none
      | some dt => some ⟨sensorId, stationId, pollutantCode, dt.toSec, m.value⟩

/-- The whole parse step of `cache_measurements`, in batch order. -/
def parseMeasurementRows (sensorId stationId : Int) (pollutantCode : String)
    (ms : List RawMeasurement) : List MeasRow :=
  ms.filterMap (parseOneMeasurement sensorId stationId pollutantCode)

/-- `INSERT OR REPLACE INTO measurements` under the unique index on
`(sensor_id, date)`: the conflicting row (if any) is deleted and the new row
inserted. -/
def insertOrReplaceMeasurement (tblM : List MeasRow) (r : MeasRow) : List MeasRow :=
  tblM.filter (fun q => !(q.sensorId == r.sensorId && q.dateSec == r.dateSec)) ++ [r]

/-- `CacheManager.cache_measurements`: parse the batch, then upsert each
surviving row in order. -/
def cache_measurements (tblM : List MeasRow) (sensorId stationId : Int)
    (pollutantCode : String) (ms : List RawMeasurement) : List MeasRow :=
  (parseMeasurementRows sensorId stationId pollutantCode ms).foldl
    insertOrReplaceMeasurement tblM

/-- The rows of the measurements table holding the key `(sid, d)`. -/
def rowsForKey (tblM : List MeasRow) (sid d : Int) : List MeasRow :=
  tblM.filter (fun q => q.sensorId == sid && q.dateSec == d)

theorem rowsForKey_insertOrReplace_same (tblM : List MeasRow) (r : MeasRow) :
    rowsForKey (insertOrReplaceMeasurement tblM r) r.sensorId r.dateSec = [r] := by
  unfold rowsForKey insertOrReplaceMeasurement
  rw [List.filter_append]
  have h1 : (tblM.filter fun q => !(q.sensorId == r.sensorId && q.dateSec == r.dateSec)).filter
      (fun q => q.sensorId == r.sensorId && q.dateSec == r.dateSec) = [] := by
    rw [List.filter_eq_nil_iff]
    intro q hq
    have := List.of_mem_filter hq
    simp only [Bool.not_eq_true'] at this
    simp [this]
  rw [h1]
  simp

theorem rowsForKey_insertOrReplace_other (tblM : List MeasRow) (r : MeasRow) (sid d : Int)
    (hne : ¬ (r.sensorId = sid ∧ r.dateSec = d)) :
    rowsForKey (insertOrReplaceMeasurement tblM r) sid d = rowsForKey tblM sid d := by
  unfold rowsForKey insertOrReplaceMeasurement
  rw [List.filter_append, List.filter_filter]
  have hr : (fun q : MeasRow =>
      ((q.sensorId == sid && q.dateSec == d) && !(q.sensorId == r.sensorId && q.dateSec == r.dateSec)))
      = fun q : MeasRow => q.sensorId == sid && q.dateSec == d := by
    funext q
    by_cases hA : (q.sensorId == sid && q.dateSec == d) = true
    · have h1 : q.sensorId = sid ∧ q.dateSec = d := by simpa using hA
      have hq : ¬ (q.sensorId = r.sensorId ∧ q.dateSec = r.dateSec) := by
        rintro ⟨ha, hb⟩
        exact hne ⟨ha.symm.trans h1.1, hb.symm.trans h1.2⟩
      have hb2 : (q.sensorId == r.sensorId && q.dateSec == r.dateSec) = false := by
        rcases Decidable.not_and_iff_or_not.mp hq with hx | hx <;> simp [hx]
      rw [hA, hb2]
      rfl
    · have hA' : (q.sensorId == sid && q.dateSec == d) = false :=
        Bool.eq_false_iff.mpr hA
      rw [hA']
      rfl
  rw [hr]
  have hbr : (r.sensorId == sid && r.dateSec == d) = false := by
    rcases Decidable.not_and_iff_or_not.mp hne with hx | hx <;> simp [hx]
  have hsing : List.filter (fun q : MeasRow => q.sensorId == sid && q.dateSec == d) [r] = [] := by
    rw [List.filter_cons]
    simp [hbr]
  rw [hsing, List.append_nil]

/-- The key content of the upsert loop: after folding a batch into the table,
the rows holding a key are exactly the last batch row with that key, or the
table's previous rows when the batch never touches the key. -/
theorem rowsForKey_foldl (batch : List MeasRow) (tblM : List MeasRow) (sid d : Int) :
    rowsForKey (batch.foldl insertOrReplaceMeasurement tblM) sid d
      = match (batch.filter (fun q => q.sensorId == sid && q.dateSec == d)).getLast? with
        | none => rowsForKey tblM sid d
        | some r => [r] := by
  induction batch generalizing tblM with
  | nil => rfl
  | cons r rest ih =>
    rw [List.foldl_cons, ih]
    by_cases h : r.sensorId = sid ∧ r.dateSec = d
    · have hfilter : List.filter (fun q : MeasRow => q.sensorId == sid && q.dateSec == d) (r :: rest)
          = r :: rest.filter (fun q => q.sensorId == sid && q.dateSec == d) := by
        simp [List.filter, h.1, h.2]
      rw [hfilter]
      cases hlast : (rest.filter (fun q : MeasRow => q.sensorId == sid && q.dateSec == d)).getLast? with
      | none =>
        have hnil : rest.filter (fun q : MeasRow => q.sensorId == sid && q.dateSec == d) = [] :=
          List.getLast?_eq_none_iff.mp hlast
        rw [hnil]
        have : rowsForKey (insertOrReplaceMeasurement tblM r) sid d = [r] := by
          have := rowsForKey_insertOrReplace_same tblM r
          rwa [h.1, h.2] at this
        simp [this]
      | some r' =>
        cases hfl : rest.filter (fun q : MeasRow => q.sensorId == sid && q.dateSec == d) with
        | nil =>
          rw [hfl] at hlast
          exact Option.noConfusion hlast
        | cons b t =>
          rw [hfl] at hlast
          rw [List.getLast?_cons_cons, hlast]
    · have hbr : (r.sensorId == sid && r.dateSec == d) = false := by
        rcases Decidable.not_and_iff_or_not.mp h with hx | hx <;> simp [hx]
      have hfilter : List.filter (fun q : MeasRow => q.sensorId == sid && q.dateSec == d) (r :: rest)
          = rest.filter (fun q => q.sensorId == sid && q.dateSec == d) := by
        rw [List.filter_cons]
        simp [hbr]
      rw [hfilter, rowsForKey_insertOrReplace_other tblM r sid d h]

/-- C2: `cache_measurements` is an idempotent upsert keyed by
`(sensor_id, timestamp)` — calling it twice with the same rows leaves exactly
one measurement row per key; a later call with a different value for an
existing key replaces the stored value (last write wins: the surviving row
for a key is the last batch row with that key); and a row whose timestamp is
missing or unparseable is skipped while the rest of the batch is persisted
(concretely, a batch with a malformed middle row stores exactly its two
well-formed rows, nullable value included). -/
theorem C2_cache_measurements_upsert (tblM : List MeasRow) (sid st : Int)
    (p : String) (ms : List RawMeasurement) :
    (∀ r, r ∈ parseMeasurementRows sid st p ms →
      (rowsForKey (cache_measurements (cache_measurements tblM sid st p ms) sid st p ms)
        r.sensorId r.dateSec).length = 1)
    ∧ (∀ ms' sid' d r',
        ((parseMeasurementRows sid st p ms').filter
            (fun q => q.sensorId == sid' && q.dateSec == d)).getLast? = some r' →
        rowsForKey (cache_measurements (cache_measurements tblM sid st p ms) sid st p ms')
          sid' d = [r'])
    ∧ (∀ pre post bad,
        (match bad.data with
         | none => True
         | some s => s = "" ∨ parseTimestamp s = none) →
        cache_measurements tblM sid st p (pre ++ bad :: post)
          = cache_measurements tblM sid st p (pre ++ post))
    ∧ cache_measurements [] 1 2 "PM10"
        [⟨some "2024-06-01 10:00:00", some 42⟩, ⟨some "not-a-date", some 7⟩,
         ⟨some "2024-06-01 11:00:00", none⟩]
      = [⟨1, 2, "PM10", PyDateTime.toSec ⟨2024, 6, 1, 10, 0, 0⟩, some 42⟩,
         ⟨1, 2, "PM10", PyDateTime.toSec ⟨2024, 6, 1, 11, 0, 0⟩, none⟩] := by
  refine ⟨?_, ?_, ?_, by decide⟩
  · intro r hr
    have hmem : r ∈ (parseMeasurementRows sid st p ms).filter
        (fun q => q.sensorId == r.sensorId && q.dateSec == r.dateSec) :=
      List.mem_filter.mpr ⟨hr, by simp⟩
    unfold cache_measurements
    rw [rowsForKey_foldl]
    cases hlast : ((parseMeasurementRows sid st p ms).filter
        (fun q => q.sensorId == r.sensorId && q.dateSec == r.dateSec)).getLast? with
    | none =>
      have : (parseMeasurementRows sid st p ms).filter
          (fun q => q.sensorId == r.sensorId && q.dateSec == r.dateSec) = [] :=
        List.getLast?_eq_none_iff.mp hlast
      rw [this] at hmem
      exact absurd hmem (List.not_mem_nil r)
    | some r'' => rfl
  · intro ms' sid' d r' hlast
    unfold cache_measurements
    rw [rowsForKey_foldl, hlast]
  · intro pre post bad hbad
    have hbadnone : parseOneMeasurement sid st p bad = none := by
      unfold parseOneMeasurement
      cases hd : bad.data with
      | none => rfl
      | some s =>
        rw [hd] at hbad
        rcases hbad with hemp | hnop
        · simp [hemp]
        · simp [hnop]
    unfold cache_measurements parseMeasurementRows
    rw [List.filterMap_append, List.filterMap_append, List.filterMap_cons, hbadnone]

theorem C2_cache_measurements_upsert_witness :
    (rowsForKey
        (cache_measurements
          (cache_measurements [] 1 2 "PM10" [⟨some "2024-06-01 10:00:00", some 5⟩])
          1 2 "PM10" [⟨some "2024-06-01 10:00:00", some 5⟩])
        1 (PyDateTime.toSec ⟨2024, 6, 1, 10, 0, 0⟩)).length = 1 :=
  (C2_cache_measurements_upsert [] 1 2 "PM10" [⟨some "2024-06-01 10:00:00", some 5⟩]).1
    ⟨1, 2, "PM10", PyDateTime.toSec ⟨2024, 6, 1, 10, 0, 0⟩, some 5⟩ (by decide)

/-! ## AggregationEngine: year-ranking aggregation
(`RankingService.compute_year_ranking`, `backend/app/ranking_service.py`
lines 85–227; the SQL CTE pipeline is embedded over lists, with SQL `REAL`
as `ℚ` and SQLite's `date(...)` as the day index of the epoch-second
encoding) -/

/-- The selectable city-aggregation method (`RankingMethod` literal in the
source; `_city_agg_expr` maps `city_avg` to `AVG` and both `worst_station`
and `any_station_exceed` to `MAX`). -/
inductive RankingMethod where
  | city_avg
  | worst_station
  | any_station_exceed
deriving DecidableEq, Repr

/-- `MIN_HOURLY_VALUES_PER_DAY = 18` (`ranking_service.py` line 46). -/
def MIN_HOURLY_VALUES_PER_DAY : Nat := 18

/-- One row of the `stations` table as the ranking query joins it
(`s.id`, `s.city_name`). -/
structure StationRow where
  id : Int
  cityName : Option String
deriving DecidableEq, Repr

/-- SQLite `date(m.date)` on the epoch-second encoding: the (floor) day
index. -/
def sqlDay (dateSec : Int) : Int := Int.fdiv dateSec 86400

/-- The `WHERE` clause of the `station_daily` CTE: pollutant match, date in
`[start, end)`, non-null value. -/
def measFiltered (rows : List MeasRow) (pollutant : String)
    (startSec endSec : Int) : List MeasRow :=
  rows.filter (fun m => m.pollutantCode == pollutant
    && decide (startSec ≤ m.dateSec) && decide (m.dateSec < endSec) && m.value.isSome)

/-- One group of the `station_daily` CTE. -/
structure StationDay where
  stationId : Int
  day : Int
  stationDayAvg : ℚ
  stationDayCount : Nat
deriving DecidableEq, Repr

/-- The number of non-null hourly values a station has on a day (within the
year range): the `COUNT(m.value)` of one `station_daily` group. -/
def countNonNullHourly (rows : List MeasRow) (pollutant : String)
    (startSec endSec st d : Int) : Nat :=
  ((measFiltered rows pollutant startSec endSec).filter
    (fun m => m.stationId == st && sqlDay m.dateSec == d)).length

/-- The `station_daily` CTE: group the filtered measurements by
`(station_id, day)`, compute `AVG(m.value)` and `COUNT(m.value)`, and keep
only groups with `HAVING station_day_count >= MIN_HOURLY_VALUES_PER_DAY`. -/
def stationDaily (rows : List MeasRow) (pollutant : String)
    (startSec endSec : Int) : List StationDay :=
  let f := measFiltered rows pollutant startSec endSec
  (((f.map (fun m => (m.stationId, sqlDay m.dateSec))).dedup).map (fun k =>
    let vals := (f.filter (fun m => m.stationId == k.1 && sqlDay m.dateSec == k.2)).filterMap
      (fun m => m.value)
    (⟨k.1, k.2, vals.sum / (vals.length : ℚ), vals.length⟩ : StationDay))).filter
    (fun sd => decide (MIN_HOURLY_VALUES_PER_DAY ≤ sd.stationDayCount))

/-- The `JOIN stations s ON s.id = sd.station_id` with
`WHERE s.city_name IS NOT NULL AND s.city_name != ''`. -/
def cityOfStation (stations : List StationRow) (sid : Int) : Option String :=
  match stations.find? (fun s => s.id == sid) with
  | none => none
  | some s =>
    match s.cityName with
    | none => none
    | some c => if c = "" then none else some c

/-- One group of the `city_daily` CTE. -/
structure CityDay where
  city : String
  day : Int
  cityDayValue : ℚ
  stationsWithData : Nat
deriving DecidableEq, Repr

/-- `MAX` over a non-empty SQL group (never applied to an empty group in the
pipeline; `0` is an arbitrary value for `[]`). -/
def listMax : List ℚ → ℚ
  | [] => 0
  | x :: xs => xs.foldl max x

/-- `MIN` over a non-empty SQL group. -/
def listMin : List ℚ → ℚ
  | [] => 0
  | x :: xs => xs.foldl min x

/-- `_city_agg_expr` (`ranking_service.py` lines 49–55): `AVG` for
`city_avg`, `MAX` for `worst_station` and `any_station_exceed`. -/
def cityAgg (method : RankingMethod) (vals : List ℚ) : ℚ :=
  match method with
  | RankingMethod.city_avg => vals.sum / (vals.length : ℚ)
  | RankingMethod.worst_station => listMax vals
  | RankingMethod.any_station_exceed => listMax vals

/-- The `city_daily` CTE: join station-days to cities and group by
`(city, day)`, aggregating station-day averages with the method's
expression and counting the stations contributing. -/
def cityDaily (rows : List MeasRow) (stations : List StationRow)
    (pollutant : String) (startSec endSec : Int) (method : RankingMethod) : List CityDay :=
  let sds := stationDaily rows pollutant startSec endSec
  let joined := sds.filterMap (fun sd =>
    (cityOfStation stations sd.stationId).map (fun c => (c, sd)))
  ((joined.map (fun e => (e.1, e.2.day))).dedup).map (fun k =>
    let group := joined.filter (fun e => e.1 == k.1 && e.2.day == k.2)
    ⟨k.1, k.2, cityAgg method (group.map (fun e => e.2.stationDayAvg)), group.length⟩)

/-- SQLite `ROUND(x, 2)` on the non-negative values this pipeline produces
(half away from zero = half up for `x ≥ 0`). -/
def round2 (x : ℚ) : ℚ := ((⌊x * 100 + 1 / 2⌋ : Int) : ℚ) / 100

/-- One output row of the `city_stats` CTE (joined with
`city_station_counts` in the final `SELECT`; the station count does not
participate in the ordering and is omitted). -/
structure CityStat where
  city : String
  exceedanceDays : Nat
  daysWithData : Nat
  exceedancePct : ℚ
  avgCityDayValue : ℚ
  maxCityDayValue : ℚ
  minCityDayValue : ℚ
  avgStationsWithData : ℚ
deriving DecidableEq, Repr

/-- The `city_stats` CTE: group city-days by city; a day counts as an
exceedance when `cd.city_day_value > threshold` (strict). -/
def cityStats (rows : List MeasRow) (stations : List StationRow)
    (pollutant : String) (startSec endSec : Int) (method : RankingMethod)
    (threshold : ℚ) : List CityStat :=
  let cds := cityDaily rows stations pollutant startSec endSec method
  ((cds.map (fun cd => cd.city)).dedup).map (fun c =>
    let group := cds.filter (fun cd => cd.city == c)
    let exc := (group.filter (fun cd => decide (threshold < cd.cityDayValue))).length
    let vals := group.map (fun cd => cd.cityDayValue)
    ⟨c, exc, group.length, round2 (100 * (exc : ℚ) / (group.length : ℚ)),
      round2 (vals.sum / (vals.length : ℚ)), round2 (listMax vals), round2 (listMin vals),
      round2 ((group.map (fun cd => (cd.stationsWithData : ℚ))).sum / (group.length : ℚ))⟩)

/-- The final `ORDER BY cs.exceedance_days DESC, cs.exceedance_pct DESC,
cs.city ASC` as a relation on output rows. -/
def rankLE (a b : CityStat) : Prop :=
  b.exceedanceDays < a.exceedanceDays
  ∨ (a.exceedanceDays = b.exceedanceDays
      ∧ (b.exceedancePct < a.exceedancePct
          ∨ (a.exceedancePct = b.exceedancePct ∧ a.city ≤ b.city)))

instance : DecidableRel rankLE := fun a b => by
  unfold rankLE
  infer_instance

instance : IsTotal CityStat rankLE where
  total a b := by
    unfold rankLE
    rcases lt_trichotomy a.exceedanceDays b.exceedanceDays with h | h | h
    · exact Or.inr (Or.inl h)
    · rcases lt_trichotomy a.exceedancePct b.exceedancePct with hp | hp | hp
      · exact Or.inr (Or.inr ⟨h.symm, Or.inl hp⟩)
      · rcases le_total a.city b.city with hc | hc
        · exact Or.inl (Or.inr ⟨h, Or.inr ⟨hp, hc⟩⟩)
        · exact Or.inr (Or.inr ⟨h.symm, Or.inr ⟨hp.symm, hc⟩⟩)
      · exact Or.inl (Or.inr ⟨h, Or.inl hp⟩)
    · exact Or.inl (Or.inl h)

instance : IsTrans CityStat rankLE where
  trans a b c hab hbc := by
    unfold rankLE at hab hbc ⊢
    rcases hab with h1 | ⟨e1, h1⟩ <;> rcases hbc with h2 | ⟨e2, h2⟩
    · exact Or.inl (h2.trans h1)
    · exact Or.inl (e2 ▸ h1)
    · exact Or.inl (e1 ▸ h2)
    · refine Or.inr ⟨e1.trans e2, ?_⟩
      rcases h1 with p1 | ⟨q1, n1⟩ <;> rcases h2 with p2 | ⟨q2, n2⟩
      · exact Or.inl (p2.trans p1)
      · exact Or.inl (q2 ▸ p1)
      · exact Or.inl (q1 ▸ p2)
      · exact Or.inr ⟨q1.trans q2, n1.trans n2⟩

/-- The ordered city list of `compute_year_ranking`: the `city_stats` rows
sorted by the final `ORDER BY`. -/
def compute_year_ranking_cities (rows : List MeasRow) (stations : List StationRow)
    (pollutant : String) (startSec endSec : Int) (method : RankingMethod)
    (threshold : ℚ) : List CityStat :=
  List.insertionSort rankLE (cityStats rows stations pollutant startSec endSec method threshold)

/-- Concrete fixture: `count` hourly rows for one station on one day, all
with value `v` (sensor id reused as station id). -/
def hourlyRows (stationId day : Int) (count : Nat) (v : ℚ) : List MeasRow :=
  (List.range count).map (fun h =>
    ⟨stationId, stationId, "PM10", day * 86400 + h * 3600, some v⟩)

theorem filterMap_value_length (l : List MeasRow)
    (h : ∀ m ∈ l, m.value.isSome = true) :
    (l.filterMap (fun m => m.value)).length = l.length := by
  induction l with
  | nil => rfl
  | cons m rest ih =>
    rw [List.filterMap_cons]
    cases hv : m.value with
    | none =>
      have hm := h m (List.mem_cons_self m rest)
      rw [hv] at hm
      exact absurd hm (by simp)
    | some v =>
      simp only [List.length_cons]
      rw [ih (fun q hq => h q (List.mem_cons_of_mem m hq))]

theorem measFiltered_isSome (rows : List MeasRow) (p : String) (s e : Int) :
    ∀ m ∈ measFiltered rows p s e, m.value.isSome = true := by
  intro m hm
  have hb := List.of_mem_filter hm
  simp only [Bool.and_eq_true] at hb
  exact hb.2

theorem cityStats_exceedanceDays (rows : List MeasRow) (stations : List StationRow)
    (p : String) (startSec endSec : Int) (method : RankingMethod) (threshold : ℚ) :
    ∀ c ∈ cityStats rows stations p startSec endSec method threshold,
      c.exceedanceDays
        = ((cityDaily rows stations p startSec endSec method).filter
            (fun cd => cd.city == c.city && decide (threshold < cd.cityDayValue))).length := by
  intro c hc
  simp only [cityStats, List.mem_map] at hc
  obtain ⟨c0, hc0, hb⟩ := hc
  subst hb
  simp only
  rw [List.filter_filter]
  exact congrArg List.length
    (List.filter_congr (fun cd _ => Bool.and_comm _ _))

/-- C6: in year-ranking aggregation a station-day enters the computation iff
it has at least `MIN_HOURLY_VALUES_PER_DAY = 18` non-null hourly values
(concretely, a station-day with 18 hourly values is included and one with 17
is excluded), and a city-day counts as an exceedance iff its aggregated
value is strictly greater than the pollutant's threshold: the per-city
exceedance count is exactly the number of its city-days with value
`> threshold`, so a city all of whose day values are `≤ threshold` (equality
included) counts zero exceedances, while any day strictly above the
threshold makes the count positive. -/
theorem C6_completeness_gate_and_strict_exceedance
    (rows : List MeasRow) (stations : List StationRow) (p : String)
    (startSec endSec : Int) (method : RankingMethod) (threshold : ℚ) :
    (∀ st d,
      (∃ sd ∈ stationDaily rows p startSec endSec, sd.stationId = st ∧ sd.day = d)
        ↔ MIN_HOURLY_VALUES_PER_DAY ≤ countNonNullHourly rows p startSec endSec st d)
    ∧ (∀ c ∈ cityStats rows stations p startSec endSec method threshold,
        c.exceedanceDays
          = ((cityDaily rows stations p startSec endSec method).filter
              (fun cd => cd.city == c.city && decide (threshold < cd.cityDayValue))).length)
    ∧ (stationDaily (hourlyRows 1 0 18 50) "PM10" 0 172800).map
        (fun sd => (sd.stationId, sd.day)) = [(1, 0)]
    ∧ stationDaily (hourlyRows 2 0 17 50) "PM10" 0 172800 = []
    ∧ (∀ c ∈ cityStats rows stations p startSec endSec method threshold,
        (∀ cd ∈ cityDaily rows stations p startSec endSec method,
          cd.city = c.city → cd.cityDayValue ≤ threshold) →
        c.exceedanceDays = 0)
    ∧ (∀ c ∈ cityStats rows stations p startSec endSec method threshold,
        ∀ cd ∈ cityDaily rows stations p startSec endSec method,
          cd.city = c.city → threshold < cd.cityDayValue →
          0 < c.exceedanceDays) := by
  refine ⟨?_, cityStats_exceedanceDays rows stations p startSec endSec method threshold,
    by decide, by decide, ?_, ?_⟩
  · intro st d
    constructor
    · rintro ⟨sd, hsd, hst, hd⟩
      simp only [stationDaily, List.mem_filter, List.mem_map] at hsd
      obtain ⟨⟨k, hk, hbuild⟩, hcount⟩ := hsd
      subst hbuild
      simp only [decide_eq_true_eq] at hcount
      simp only at hst hd
      subst hst
      subst hd
      unfold countNonNullHourly
      rw [← filterMap_value_length
        ((measFiltered rows p startSec endSec).filter
          (fun m => m.stationId == k.1 && sqlDay m.dateSec == k.2))
        (fun m hm => measFiltered_isSome rows p startSec endSec m (List.mem_of_mem_filter hm))]
      exact hcount
    · intro hge
      have hpos : 0 < countNonNullHourly rows p startSec endSec st d :=
        lt_of_lt_of_le (by norm_num [MIN_HOURLY_VALUES_PER_DAY]) hge
      unfold countNonNullHourly at hpos
      obtain ⟨m, hm⟩ := List.exists_mem_of_length_pos hpos
      have hmf : m ∈ measFiltered rows p startSec endSec := List.mem_of_mem_filter hm
      have hkey := List.of_mem_filter hm
      simp only [Bool.and_eq_true, beq_iff_eq] at hkey
      have hkmem : (st, d) ∈ ((measFiltered rows p startSec endSec).map
          (fun m => (m.stationId, sqlDay m.dateSec))).dedup := by
        rw [List.mem_dedup, List.mem_map]
        exact ⟨m, hmf, by rw [hkey.1, hkey.2]⟩
      have hlen : (((measFiltered rows p startSec endSec).filter
          (fun m => m.stationId == st && sqlDay m.dateSec == d)).filterMap
            (fun m => m.value)).length
          = countNonNullHourly rows p startSec endSec st d :=
        filterMap_value_length _
          (fun q hq => measFiltered_isSome rows p startSec endSec q (List.mem_of_mem_filter hq))
      refine ⟨⟨st, d,
        (((measFiltered rows p startSec endSec).filter
          (fun m => m.stationId == st && sqlDay m.dateSec == d)).filterMap
            (fun m => m.value)).sum
          / ((((measFiltered rows p startSec endSec).filter
            (fun m => m.stationId == st && sqlDay m.dateSec == d)).filterMap
              (fun m => m.value)).length : ℚ),
        (((measFiltered rows p startSec endSec).filter
          (fun m => m.stationId == st && sqlDay m.dateSec == d)).filterMap
            (fun m => m.value)).length⟩, ?_, rfl, rfl⟩
      simp only [stationDaily, List.mem_filter, List.mem_map]
      constructor
      · exact ⟨(st, d), hkmem, rfl⟩
      · simp only [decide_eq_true_eq]
        rw [hlen]
        exact hge
  · intro c hc hall
    rw [cityStats_exceedanceDays rows stations p startSec endSec method threshold c hc]
    rw [List.length_eq_zero, List.filter_eq_nil_iff]
    intro cd hcd
    simp only [Bool.and_eq_true, beq_iff_eq, decide_eq_true_eq, not_and]
    intro hcity
    exact not_lt.mpr (hall cd hcd hcity)
  · intro c hc cd hcd hcity hlt
    rw [cityStats_exceedanceDays rows stations p startSec endSec method threshold c hc]
    have hmem : cd ∈ (cityDaily rows stations p startSec endSec method).filter
        (fun cd => cd.city == c.city && decide (threshold < cd.cityDayValue)) :=
      List.mem_filter.mpr ⟨hcd, by simp [hcity, hlt]⟩
    exact List.length_pos.mpr (List.ne_nil_of_mem hmem)

theorem C6_completeness_gate_witness :
    ∃ sd ∈ stationDaily (hourlyRows 1 0 18 50) "PM10" 0 172800,
      sd.stationId = 1 ∧ sd.day = 0 :=
  ((C6_completeness_gate_and_strict_exceedance (hourlyRows 1 0 18 50) [] "PM10" 0 172800
    RankingMethod.city_avg 45).1 1 0).mpr (by decide)

theorem rankLE_antisymm_city {a b : CityStat} (h1 : rankLE a b) (h2 : rankLE b a) :
    a.city = b.city := by
  unfold rankLE at h1 h2
  rcases h1 with h1 | ⟨e1, h1⟩ <;> rcases h2 with h2 | ⟨e2, h2⟩
  · exact absurd h2 (lt_asymm h1)
  · exact absurd (e2 ▸ h1) (lt_irrefl _)
  · exact absurd (e1 ▸ h2) (lt_irrefl _)
  · rcases h1 with p1 | ⟨q1, n1⟩ <;> rcases h2 with p2 | ⟨q2, n2⟩
    · exact absurd p2 (lt_asymm p1)
    · exact absurd (q2 ▸ p1) (lt_irrefl _)
    · exact absurd (q1 ▸ p2) (lt_irrefl _)
    · exact le_antisymm n1 n2

/-- Two lists of city stats that are permutations of each other, both sorted
by the ranking order, with pairwise-distinct city names, are equal: the
ranking order is a deterministic total order on such lists. -/
theorem sorted_perm_eq_of_nodup_city :
    ∀ {l₁ l₂ : List CityStat}, List.Perm l₁ l₂ →
      List.Sorted rankLE l₁ → List.Sorted rankLE l₂ →
      (l₁.map (fun c => c.city)).Nodup → l₁ = l₂ := by
  intro l₁
  induction l₁ with
  | nil =>
    intro l₂ hp _ _ _
    exact hp.nil_eq
  | cons a t₁ ih =>
    intro l₂ hp hs₁ hs₂ hnd
    cases l₂ with
    | nil =>
      exact absurd hp.symm.nil_eq (by simp)
    | cons b t₂ =>
      by_cases hab : a = b
      · subst hab
        have hpt : List.Perm t₁ t₂ := hp.cons_inv
        have hnd' : (t₁.map (fun c => c.city)).Nodup := by
          rw [List.map_cons, List.nodup_cons] at hnd
          exact hnd.2
        rw [ih hpt hs₁.of_cons hs₂.of_cons hnd']
      · exfalso
        have ha2 : a ∈ t₂ := by
          have hmem : a ∈ b :: t₂ := hp.subset (List.mem_cons_self a t₁)
          rcases List.mem_cons.mp hmem with heq | hmem'
          · exact absurd heq hab
          · exact hmem'
        have hb1 : b ∈ t₁ := by
          have hmem : b ∈ a :: t₁ := hp.symm.subset (List.mem_cons_self b t₂)
          rcases List.mem_cons.mp hmem with heq | hmem'
          · exact absurd heq.symm hab
          · exact hmem'
        have hba : rankLE b a := List.rel_of_sorted_cons hs₂ a ha2
        have hab' : rankLE a b := List.rel_of_sorted_cons hs₁ b hb1
        have hcity : a.city = b.city := rankLE_antisymm_city hab' hba
        have hbmem : b.city ∈ t₁.map (fun c => c.city) := List.mem_map_of_mem _ hb1
        rw [← hcity] at hbmem
        rw [List.map_cons, List.nodup_cons] at hnd
        exact hnd.1 hbmem

theorem cityStats_map_city (rows : List MeasRow) (stations : List StationRow)
    (p : String) (startSec endSec : Int) (method : RankingMethod) (threshold : ℚ) :
    (cityStats rows stations p startSec endSec method threshold).map (fun c => c.city)
      = ((cityDaily rows stations p startSec endSec method).map (fun cd => cd.city)).dedup := by
  unfold cityStats
  rw [List.map_map]
  exact List.map_id _

/-- C8: the city list of `compute_year_ranking` is a permutation of the
per-city stats totally ordered by exceedance-day count descending, then
exceedance percentage descending, then city name ascending; in particular
any two entries with equal counts and equal percentages appear in ascending
name order, and the sorted output is the unique such arrangement (city names
are pairwise distinct), making the ranking deterministic. -/
theorem C8_ranking_order_deterministic (rows : List MeasRow) (stations : List StationRow)
    (p : String) (startSec endSec : Int) (method : RankingMethod) (threshold : ℚ) :
    List.Perm (compute_year_ranking_cities rows stations p startSec endSec method threshold)
        (cityStats rows stations p startSec endSec method threshold)
    ∧ List.Sorted rankLE
        (compute_year_ranking_cities rows stations p startSec endSec method threshold)
    ∧ List.Pairwise (fun a b => a.exceedanceDays = b.exceedanceDays →
        a.exceedancePct = b.exceedancePct → a.city ≤ b.city)
        (compute_year_ranking_cities rows stations p startSec endSec method threshold)
    ∧ ∀ l', List.Perm l'
          (compute_year_ranking_cities rows stations p startSec endSec method threshold) →
        List.Sorted rankLE l' →
        l' = compute_year_ranking_cities rows stations p startSec endSec method threshold := by
  have hperm : List.Perm
      (compute_year_ranking_cities rows stations p startSec endSec method threshold)
      (cityStats rows stations p startSec endSec method threshold) :=
    List.perm_insertionSort rankLE _
  have hsorted : List.Sorted rankLE
      (compute_year_ranking_cities rows stations p startSec endSec method threshold) :=
    List.sorted_insertionSort rankLE _
  refine ⟨hperm, hsorted, ?_, ?_⟩
  · refine hsorted.imp ?_
    intro a b hle he hpct
    unfold rankLE at hle
    rcases hle with h | ⟨-, h | ⟨-, h⟩⟩
    · exact absurd h (by rw [he]; exact lt_irrefl _)
    · exact absurd h (by rw [hpct]; exact lt_irrefl _)
    · exact h
  · intro l' hp' hs'
    have hnods : ((cityStats rows stations p startSec endSec method threshold).map
        (fun c => c.city)).Nodup := by
      rw [cityStats_map_city]
      exact List.nodup_dedup _
    have hnod' : (l'.map (fun c => c.city)).Nodup :=
      ((hp'.trans hperm).map (fun c => c.city)).nodup_iff.mpr hnods
    exact sorted_perm_eq_of_nodup_city hp' hs' hsorted hnod'

theorem C8_ranking_order_deterministic_witness :
    ([] : List CityStat)
      = compute_year_ranking_cities [] [] "PM10" 0 86400 RankingMethod.city_avg 45 :=
  (C8_ranking_order_deterministic [] [] "PM10" 0 86400 RankingMethod.city_avg 45).2.2.2
    [] (List.Perm.refl _) List.sorted_nil
